import Mathlib

/-!
Verification of the xinfo X11 diagnostic client (src/xinfo.c) against its
natural-language specification.  The C program is shallowly embedded: byte
buffers are `List Nat` (each element a byte value), structs are Lean
structures mirroring the C struct layouts, and the wire decoding loops are
translated into executable Lean functions that follow the source code
statement by statement.
-/

set_option maxRecDepth 4000

/-! ## Byte-level helpers

Little-endian field serialization.  The C code memcpys host-order structs
onto the wire after declaring byte order 'l' (little endian) in the setup
request, so multi-byte fields are laid out least-significant byte first. -/

/-- Byte `i` of a buffer; reads of C heap memory are modelled on `List Nat`,
with `getD` supplying 0 for an index past the end (the deterministic
stand-in for whatever garbage an out-of-bounds C read would return). -/
def byteAt (buf : List Nat) (i : Nat) : Nat := buf.getD i 0

/-- Serialize one byte. -/
def w8 (n : Nat) : List Nat := [n % 256]

/-- Serialize a 16-bit field, little endian. -/
def w16 (n : Nat) : List Nat := [n % 256, n / 256 % 256]

/-- Serialize a 32-bit field, little endian. -/
def w32 (n : Nat) : List Nat :=
  [n % 256, n / 256 % 256, n / 65536 % 256, n / 16777216 % 256]

/-- Read back a 16-bit little-endian field at offset `i`. -/
def le16At (buf : List Nat) (i : Nat) : Nat :=
  byteAt buf i + 256 * byteAt buf (i + 1)

/-- Read back a 32-bit little-endian field at offset `i`. -/
def le32At (buf : List Nat) (i : Nat) : Nat :=
  byteAt buf i + 256 * byteAt buf (i + 1) + 65536 * byteAt buf (i + 2) +
    16777216 * byteAt buf (i + 3)

/-! ## Padding and the connection setup request (xinfo.c lines 71-72, 287-323)

`X_PADDING(x) = (4 - (x % 4)) % 4` and `X_PAD(x) = x + X_PADDING(x)` are the
macros from xinfo.c lines 71-72.  `x_connect_to_socket` (lines 292-316)
builds the setup request in a single `calloc`ed (hence zero-filled) buffer:
the 12-byte `struct x_setup_request`, the protocol name bytes, zero padding
to a 4-byte boundary, the authentication data bytes, zero padding again. -/

def X_PADDING (x : Nat) : Nat := (4 - x % 4) % 4

def X_PAD (x : Nat) : Nat := x + X_PADDING x

def X_VERSION_MAJOR : Nat := 11

def X_VERSION_MINOR : Nat := 0

/-- The serialized 12-byte `struct x_setup_request` exactly as initialized at
xinfo.c lines 293-299: `byte_order = 'l'` (ASCII 108), `pad1` zero,
`protocol_version_major = 11`, `protocol_version_minor = 0`, the two length
fields, `pad2` zero. -/
def serialize_x_setup_request (protocol_name_len auth_data_len : Nat) : List Nat :=
  w8 108 ++ w8 0 ++ w16 X_VERSION_MAJOR ++ w16 X_VERSION_MINOR ++
    w16 protocol_name_len ++ w16 auth_data_len ++ w16 0

/-- The complete connection-request buffer built at xinfo.c lines 300-316:
header, then the name and data each followed by zero-filled padding to a
4-byte boundary (the buffer is `calloc`ed, so bytes not overwritten by the
two `memcpy`s stay zero). -/
def build_setup_request (protocol_name auth_data : List Nat) : List Nat :=
  serialize_x_setup_request protocol_name.length auth_data.length ++
    protocol_name ++ List.replicate (X_PADDING protocol_name.length) 0 ++
    auth_data ++ List.replicate (X_PADDING auth_data.length) 0

/-! ## Xauthority credential lookup (xinfo.c lines 554-655)

The scan loop of `x_connect_to_display` (lines 613-642) walks every record of
the Xauthority file.  A record matches when the parsed display number equals
the target number and the hostname compares equal.  On a match the held
(protocol name, data) pair is *overwritten* with the current record's pair;
a non-matching record leaves it untouched.  After the loop, a null
`auth_data` (no record ever matched) aborts with a credential error (lines
645-648) before any socket work; otherwise the handshake is started with the
held pair (lines 650-652). -/

/-- One parsed Xauthority record.  `xauth_number` holds the numeric value
`strtoul` extracts from the record's display-number string (xinfo.c:629). -/
structure xauth_entry where
  family : Nat
  xauth_hostname : String
  xauth_number : Nat
  xauth_protocol_name : List Nat
  xauth_data : List Nat

/-- The match test from xinfo.c line 629-630:
`strtoul(xauth_number, 0, 10) == number && strcmp(hostname, xauth_hostname) == 0`. -/
def xauth_matches (hostname : String) (number : Nat) (e : xauth_entry) : Bool :=
  e.xauth_number == number && e.xauth_hostname == hostname

/-- The scan loop (xinfo.c lines 613-642): a fold over the records in file
order; each matching record overwrites the pair held so far. -/
def xauth_lookup (hostname : String) (number : Nat)
    (entries : List xauth_entry) : Option (List Nat × List Nat) :=
  entries.foldl
    (fun acc e =>
      if xauth_matches hostname number e then
        some (e.xauth_protocol_name, e.xauth_data)
      else acc)
    none

/-- Spec-side reading of claim C4: the pair of the FIRST matching entry in
file order. -/
def xauth_first_match (hostname : String) (number : Nat)
    (entries : List xauth_entry) : Option (List Nat × List Nat) :=
  (entries.find? (xauth_matches hostname number)).map
    (fun e => (e.xauth_protocol_name, e.xauth_data))

/-- The outcome of `x_connect_to_display` as far as claim C4 observes it. -/
inductive connect_outcome where
  | credential_unavailable
  | handshake_attempted (protocol_name auth_data : List Nat)
deriving DecidableEq

/-- xinfo.c lines 645-652: if no record matched (`!auth_data`) the run dies
with "No X authentication data for the specified display" before
`x_connect_to_display_with_auth_data` is ever called; otherwise the
handshake proceeds with the held pair. -/
def x_connect_to_display_outcome (hostname : String) (number : Nat)
    (entries : List xauth_entry) : connect_outcome :=
  match xauth_lookup hostname number entries with
  | none => connect_outcome.credential_unavailable
  | some p => connect_outcome.handshake_attempted p.1 p.2

/-! ## Display name parsing (xinfo.c lines 426-489)

`parse_x_display_name` counts the characters before the first ':' into
`hostname_len`, then copies the hostname with
`snprintf(hostname, *hostname_len, "%s", full_name)` - snprintf's size
argument includes the terminating NUL, so at most `hostname_len - 1`
characters are actually written (the buffer itself is zero-initialized).
The display number is `strtoul` of the text after the colon; if parsing
stopped at the string end, the screen defaults to 0, otherwise one char
(the dot) is skipped and the screen number parsed.
`get_socket_for_display` (lines 483-489) then decides on a UNIX-domain
connection when the hostname is empty or when the 5 characters at indices
`hostname_len-5 .. hostname_len-1` of the hostname buffer are "/unix". -/

/-- Number of characters strictly before the first ':' (the value the loop
at xinfo.c lines 455-457 leaves in `*hostname_len`). -/
def display_hostname_len (s : List Nat) : Nat :=
  (s.takeWhile (fun c => c != 58)).length

/-- Contents of the `hostname` buffer after the snprintf at xinfo.c:458:
size argument `*hostname_len` means at most `hostname_len - 1` source
characters are copied; a size of 0 writes nothing. -/
def parsed_hostname (s : List Nat) : List Nat :=
  if display_hostname_len s = 0 then [] else s.take (display_hostname_len s - 1)

/-- Reading the zero-initialized `char hostname[HOST_NAME_MAX]` array at
index `i`: bytes snprintf did not write remain 0. -/
def hostname_buf_at (s : List Nat) (i : Nat) : Nat :=
  (parsed_hostname s).getD i 0

/-- Leading-decimal-digit parse: the value and the rest of the string.
Models `strtoul(curr, &end, 10)` on the digit-initial strings display names
contain (xinfo.c:462, 469). -/
def parse_digits_acc : List Nat → Nat → Nat × List Nat
  | [], acc => (acc, [])
  | c :: rest, acc =>
      if 48 ≤ c ∧ c ≤ 57 then parse_digits_acc rest (acc * 10 + (c - 48))
      else (acc, c :: rest)

def parse_digits (s : List Nat) : Nat × List Nat := parse_digits_acc s 0

/-- The text after the first ':' (empty when there is no colon, in which
case the scan loop consumed the whole string and `curr` points at the NUL). -/
def display_after_colon (s : List Nat) : List Nat :=
  (s.dropWhile (fun c => c != 58)).drop 1

/-- The display sequence number (xinfo.c:462). -/
def parsed_display_number (s : List Nat) : Nat :=
  (parse_digits (display_after_colon s)).1

/-- The screen number (xinfo.c lines 465-472): 0 when `strtoul` stopped at
the end of the string, otherwise skip the dot and parse again. -/
def parsed_screen_number (s : List Nat) : Nat :=
  match (parse_digits (display_after_colon s)).2 with
  | [] => 0
  | _ :: rest => (parse_digits rest).1

/-- The UNIX-domain decision of `get_socket_for_display` (xinfo.c lines
483-489): empty hostname, or the bytes of the hostname *buffer* at indices
`len-5 .. len-1` spelling "/unix". -/
def is_unix_connection (s : List Nat) : Bool :=
  let len := display_hostname_len s
  len = 0 ||
    (decide (5 < len) && hostname_buf_at s (len - 5) == 47 &&
      hostname_buf_at s (len - 4) == 117 && hostname_buf_at s (len - 3) == 110 &&
      hostname_buf_at s (len - 2) == 105 && hostname_buf_at s (len - 1) == 120)

/-! ## Setup payload decoding (xinfo.c lines 355-423)

After the handshake, `x_connect_to_socket` decodes the additional-data
buffer in a single forward pass: `curr_data` starts at the front and each
`memcpy(&dst, curr_data, sizeof(struct ...))` advances it by the struct
size.  The C code performs NO bounds check against the end of
`additional_data`: the embedding therefore keeps, alongside the remaining
bytes, an `oob` flag recording whether any read interval extended past the
end of the supplied buffer (i.e. whether a memcpy source was out of
bounds).  Out-of-range bytes are modelled as 0 so the pass stays total,
exactly as the C pass is: it has no failure path. -/

/-- Forward-cursor state: bytes not yet consumed, and whether some read has
already run past the end of the buffer. -/
structure Rd where
  rest : List Nat
  oob : Bool
deriving DecidableEq

/-- Consume `n` bytes: the bytes read (zero-extended past the end), and the
new state.  The `oob` flag is set when fewer than `n` bytes remained. -/
def rdTake (n : Nat) (s : Rd) : List Nat × Rd :=
  (s.rest.take n ++ List.replicate (n - s.rest.length) 0,
    Rd.mk (s.rest.drop n) (s.oob || decide (s.rest.length < n)))

/-- Read one byte. -/
def rd8 (s : Rd) : Nat × Rd :=
  ((rdTake 1 s).1.getD 0 0, (rdTake 1 s).2)

/-- Read a 16-bit little-endian field. -/
def rd16 (s : Rd) : Nat × Rd :=
  ((rdTake 2 s).1.getD 0 0 + 256 * (rdTake 2 s).1.getD 1 0, (rdTake 2 s).2)

/-- Read a 32-bit little-endian field. -/
def rd32 (s : Rd) : Nat × Rd :=
  ((rdTake 4 s).1.getD 0 0 + 256 * (rdTake 4 s).1.getD 1 0 +
      65536 * (rdTake 4 s).1.getD 2 0 + 16777216 * (rdTake 4 s).1.getD 3 0,
    (rdTake 4 s).2)

/-- `struct x_setup_data_impl` (xinfo.c lines 129-145), 32 bytes on the
wire; the trailing 4 pad bytes are consumed but not stored. -/
structure x_setup_data_impl where
  release_number : Nat
  resource_id_base : Nat
  resource_id_mask : Nat
  motion_buffer_size : Nat
  vendor_length : Nat
  maximum_request_len : Nat
  num_roots : Nat
  num_pixmap_formats : Nat
  image_byte_order : Nat
  bitmap_format_bit_order : Nat
  bitmap_format_scanline_unit : Nat
  bitmap_format_scanline_pad : Nat
  min_keycode : Nat
  max_keycode : Nat
deriving DecidableEq

/-- `struct x_format` (xinfo.c lines 147-152), 8 bytes on the wire. -/
structure x_format where
  depth : Nat
  bits_per_pixel : Nat
  scanline_pad : Nat
deriving DecidableEq

/-- `struct x_screen_data` (xinfo.c lines 154-171), 40 bytes on the wire. -/
structure x_screen_data where
  root : Nat
  default_colormap : Nat
  white_pixel : Nat
  black_pixel : Nat
  current_input_mask : Nat
  width_in_pixels : Nat
  height_in_pixels : Nat
  width_in_millimeters : Nat
  height_in_millimeters : Nat
  min_installed_maps : Nat
  max_installed_maps : Nat
  root_visual_id : Nat
  backing_stores : Nat
  save_unders : Nat
  root_depth : Nat
  num_allowed_depths : Nat
deriving DecidableEq

/-- `struct x_depth_data` (xinfo.c lines 173-178), 8 bytes on the wire. -/
structure x_depth_data where
  depth : Nat
  num_visuals : Nat
deriving DecidableEq

/-- `struct x_visual_type` (xinfo.c lines 180-189), 24 bytes on the wire. -/
structure x_visual_type where
  visual_id : Nat
  visual_class : Nat
  bits_per_rgb_value : Nat
  colormap_entries : Nat
  red_mask : Nat
  green_mask : Nat
  blue_mask : Nat
deriving DecidableEq

/-- `struct x_depth` (xinfo.c lines 191-194). -/
structure x_depth where
  data : x_depth_data
  visuals : List x_visual_type
deriving DecidableEq

/-- `struct x_screen` (xinfo.c lines 196-199). -/
structure x_screen where
  data : x_screen_data
  allowed_depths : List x_depth
deriving DecidableEq

/-- `struct x_setup_data` (xinfo.c lines 201-208) as populated by the
decode pass; `vendor_name` is the `calloc(vendor_length + 1)` buffer, i.e.
the vendor bytes followed by the terminating 0. -/
structure x_setup_data where
  vendor_name : List Nat
  pixmap_formats : List x_format
  roots : List x_screen
  data : x_setup_data_impl
deriving DecidableEq

/-- Decode one `struct x_format` (xinfo.c:380: one memcpy of 8 bytes). -/
def decode_x_format (s : Rd) : x_format × Rd :=
  let p1 := rd8 s
  let p2 := rd8 p1.2
  let p3 := rd8 p2.2
  let s4 := (rdTake 5 p3.2).2
  (x_format.mk p1.1 p2.1 p3.1, s4)

/-- Decode one `struct x_visual_type` (xinfo.c:418). -/
def decode_x_visual_type (s : Rd) : x_visual_type × Rd :=
  let p1 := rd32 s
  let p2 := rd8 p1.2
  let p3 := rd8 p2.2
  let p4 := rd16 p3.2
  let p5 := rd32 p4.2
  let p6 := rd32 p5.2
  let p7 := rd32 p6.2
  let s8 := (rdTake 4 p7.2).2
  (x_visual_type.mk p1.1 p2.1 p3.1 p4.1 p5.1 p6.1 p7.1, s8)

/-- Decode one `struct x_depth_data` (xinfo.c:407). -/
def decode_x_depth_data (s : Rd) : x_depth_data × Rd :=
  let p1 := rd8 s
  let p2 := (rdTake 1 p1.2).2
  let p3 := rd16 p2
  let s4 := (rdTake 4 p3.2).2
  (x_depth_data.mk p1.1 p3.1, s4)

/-- Decode one `struct x_screen_data` (xinfo.c:395). -/
def decode_x_screen_data (s : Rd) : x_screen_data × Rd :=
  let p1 := rd32 s
  let p2 := rd32 p1.2
  let p3 := rd32 p2.2
  let p4 := rd32 p3.2
  let p5 := rd32 p4.2
  let p6 := rd16 p5.2
  let p7 := rd16 p6.2
  let p8 := rd16 p7.2
  let p9 := rd16 p8.2
  let p10 := rd16 p9.2
  let p11 := rd16 p10.2
  let p12 := rd32 p11.2
  let p13 := rd8 p12.2
  let p14 := rd8 p13.2
  let p15 := rd8 p14.2
  let p16 := rd8 p15.2
  (x_screen_data.mk p1.1 p2.1 p3.1 p4.1 p5.1 p6.1 p7.1 p8.1 p9.1 p10.1 p11.1
    p12.1 p13.1 p14.1 p15.1 p16.1, p16.2)

/-- The pixmap formats loop at xinfo.c lines 379-383: exactly `n`
fixed-size records, `n` taken from the header's `num_pixmap_formats`. -/
def decode_formats : Nat → Rd → List x_format × Rd
  | 0, s => ([], s)
  | n + 1, s =>
      let p := decode_x_format s
      let q := decode_formats n p.2
      (p.1 :: q.1, q.2)

/-- The visuals loop at xinfo.c lines 417-420: exactly `n` fixed-size
records, `n` taken from the enclosing depth's `num_visuals`. -/
def decode_visuals : Nat → Rd → List x_visual_type × Rd
  | 0, s => ([], s)
  | n + 1, s =>
      let p := decode_x_visual_type s
      let q := decode_visuals n p.2
      (p.1 :: q.1, q.2)

/-- One iteration of the depths loop (xinfo.c lines 405-421): the depth
header, then its visuals. -/
def decode_one_x_depth (s : Rd) : x_depth × Rd :=
  let p := decode_x_depth_data s
  let q := decode_visuals p.1.num_visuals p.2
  (x_depth.mk p.1 q.1, q.2)

/-- The depths loop, `n` taken from the screen's `num_allowed_depths`. -/
def decode_depths : Nat → Rd → List x_depth × Rd
  | 0, s => ([], s)
  | n + 1, s =>
      let p := decode_one_x_depth s
      let q := decode_depths n p.2
      (p.1 :: q.1, q.2)

/-- One iteration of the screens loop (xinfo.c lines 393-422). -/
def decode_one_x_screen (s : Rd) : x_screen × Rd :=
  let p := decode_x_screen_data s
  let q := decode_depths p.1.num_allowed_depths p.2
  (x_screen.mk p.1 q.1, q.2)

/-- The screens loop, `n` taken from the header's `num_roots`. -/
def decode_screens : Nat → Rd → List x_screen × Rd
  | 0, s => ([], s)
  | n + 1, s =>
      let p := decode_one_x_screen s
      let q := decode_screens n p.2
      (p.1 :: q.1, q.2)

/-- The 32-byte setup-data header (xinfo.c:357, one memcpy of
`struct x_setup_data_impl`). -/
def decode_x_setup_data_impl (s : Rd) : x_setup_data_impl × Rd :=
  let p1 := rd32 s
  let p2 := rd32 p1.2
  let p3 := rd32 p2.2
  let p4 := rd32 p3.2
  let p5 := rd16 p4.2
  let p6 := rd16 p5.2
  let p7 := rd8 p6.2
  let p8 := rd8 p7.2
  let p9 := rd8 p8.2
  let p10 := rd8 p9.2
  let p11 := rd8 p10.2
  let p12 := rd8 p11.2
  let p13 := rd8 p12.2
  let p14 := rd8 p13.2
  let s15 := (rdTake 4 p14.2).2
  (x_setup_data_impl.mk p1.1 p2.1 p3.1 p4.1 p5.1 p6.1 p7.1 p8.1 p9.1 p10.1
    p11.1 p12.1 p13.1 p14.1, s15)

/-- The whole decode pass of xinfo.c lines 355-423 over the additional-data
buffer: header, vendor name (a `calloc(vendor_length + 1)` buffer filled
with `vendor_length` bytes, so the byte at index `vendor_length` stays 0),
pixmap formats, screens.  Returns the populated `x_setup_data` and the
final cursor state. -/
def decode_setup_payload (buf : List Nat) : x_setup_data × Rd :=
  let p1 := decode_x_setup_data_impl (Rd.mk buf false)
  let pv := rdTake p1.1.vendor_length p1.2
  let pf := decode_formats p1.1.num_pixmap_formats pv.2
  let ps := decode_screens p1.1.num_roots pf.2
  (x_setup_data.mk (pv.1 ++ [0]) pf.1 ps.1 p1.1, ps.2)

/-! ## Synthetic setup payloads (the test-side encoder for claims C1/C2)

To state the round-trip property the spec demands ("a synthetic setup
payload with N screens, each with D depths, each with V visuals"), the wire
layout of xinfo.c's structs is replayed as an encoder.  A well-formed
payload carries every count field equal to the length of the list it
licenses, so the encoder writes list lengths into the count positions. -/

def encode_x_format (f : x_format) : List Nat :=
  w8 f.depth ++ w8 f.bits_per_pixel ++ w8 f.scanline_pad ++ List.replicate 5 0

def encode_x_visual_type (v : x_visual_type) : List Nat :=
  w32 v.visual_id ++ w8 v.visual_class ++ w8 v.bits_per_rgb_value ++
    w16 v.colormap_entries ++ w32 v.red_mask ++ w32 v.green_mask ++
    w32 v.blue_mask ++ List.replicate 4 0

def encode_x_depth (d : x_depth) : List Nat :=
  w8 d.data.depth ++ List.replicate 1 0 ++ w16 d.visuals.length ++
    List.replicate 4 0 ++ (d.visuals.map encode_x_visual_type).flatten

def encode_x_screen (s : x_screen) : List Nat :=
  w32 s.data.root ++ w32 s.data.default_colormap ++ w32 s.data.white_pixel ++
    w32 s.data.black_pixel ++ w32 s.data.current_input_mask ++
    w16 s.data.width_in_pixels ++ w16 s.data.height_in_pixels ++
    w16 s.data.width_in_millimeters ++ w16 s.data.height_in_millimeters ++
    w16 s.data.min_installed_maps ++ w16 s.data.max_installed_maps ++
    w32 s.data.root_visual_id ++ w8 s.data.backing_stores ++
    w8 s.data.save_unders ++ w8 s.data.root_depth ++
    w8 s.allowed_depths.length ++ (s.allowed_depths.map encode_x_depth).flatten

/-- The 32-byte setup-data header for the contents of `x`, count fields
taken from the list lengths (a well-formed payload declares counts equal to
the lengths of the lists they license). -/
def encode_setup_header (x : x_setup_data) : List Nat :=
  w32 x.data.release_number ++ w32 x.data.resource_id_base ++
    w32 x.data.resource_id_mask ++ w32 x.data.motion_buffer_size ++
    w16 x.vendor_name.length ++ w16 x.data.maximum_request_len ++
    w8 x.roots.length ++ w8 x.pixmap_formats.length ++
    w8 x.data.image_byte_order ++ w8 x.data.bitmap_format_bit_order ++
    w8 x.data.bitmap_format_scanline_unit ++
    w8 x.data.bitmap_format_scanline_pad ++ w8 x.data.min_keycode ++
    w8 x.data.max_keycode ++ List.replicate 4 0

/-- A well-formed setup payload for the contents of `x`: the 32-byte header,
the vendor bytes, the formats, the screens.  `x.vendor_name` here holds the
raw vendor bytes. -/
def encode_setup_payload (x : x_setup_data) : List Nat :=
  encode_setup_header x ++ x.vendor_name ++
    (x.pixmap_formats.map encode_x_format).flatten ++
    (x.roots.map encode_x_screen).flatten

/-- Byte size a depth record and its visuals occupy on the wire. -/
def depth_wire_size (d : x_depth) : Nat := 8 + 24 * d.visuals.length

/-- Byte size a screen record and its depths occupy on the wire. -/
def screen_wire_size (s : x_screen) : Nat :=
  40 + (s.allowed_depths.map depth_wire_size).sum

/-- Total byte size the counts of `x` imply: fixed header, vendor length,
per-record fixed sizes. -/
def setup_implied_size (x : x_setup_data) : Nat :=
  32 + x.vendor_name.length + 8 * x.pixmap_formats.length +
    (x.roots.map screen_wire_size).sum

/-- Field values truncated to their wire widths, as decoding a payload
serialized from arbitrary `Nat` field values recovers them. -/
def trunc_x_format (f : x_format) : x_format :=
  x_format.mk (f.depth % 256) (f.bits_per_pixel % 256) (f.scanline_pad % 256)

def trunc_x_visual_type (v : x_visual_type) : x_visual_type :=
  x_visual_type.mk (v.visual_id % 4294967296) (v.visual_class % 256)
    (v.bits_per_rgb_value % 256) (v.colormap_entries % 65536)
    (v.red_mask % 4294967296) (v.green_mask % 4294967296)
    (v.blue_mask % 4294967296)

/-- The structure decoding recovers for an encoded depth whose visual count
fits its 16-bit field. -/
def dec_form_x_depth (d : x_depth) : x_depth :=
  x_depth.mk (x_depth_data.mk (d.data.depth % 256) d.visuals.length)
    (d.visuals.map trunc_x_visual_type)

def trunc_x_screen_data (num_depths : Nat) (s : x_screen_data) : x_screen_data :=
  x_screen_data.mk (s.root % 4294967296) (s.default_colormap % 4294967296)
    (s.white_pixel % 4294967296) (s.black_pixel % 4294967296)
    (s.current_input_mask % 4294967296) (s.width_in_pixels % 65536)
    (s.height_in_pixels % 65536) (s.width_in_millimeters % 65536)
    (s.height_in_millimeters % 65536) (s.min_installed_maps % 65536)
    (s.max_installed_maps % 65536) (s.root_visual_id % 4294967296)
    (s.backing_stores % 256) (s.save_unders % 256) (s.root_depth % 256)
    num_depths

/-- The structure decoding recovers for an encoded screen whose counts fit
their fields. -/
def dec_form_x_screen (s : x_screen) : x_screen :=
  x_screen.mk (trunc_x_screen_data s.allowed_depths.length s.data)
    (s.allowed_depths.map dec_form_x_depth)

/-- The count-field bounds making a screen's nested counts representable on
the wire (depth count is an 8-bit field, visual counts 16-bit fields). -/
abbrev screen_counts_ok (s : x_screen) : Prop :=
  s.allowed_depths.length < 256 ∧
    ∀ d ∈ s.allowed_depths, d.visuals.length < 65536

/-! ## Extension version queries (xinfo.c lines 822-1249)

Each version-query function writes its dialect's request, reads a fixed
32-byte reply, and fails (returns nonzero) when the read is short or the
status byte is not `X_REPLY`; on success it returns the version pair from
the dialect's field offsets.  The embedding models each function by its
reply-side behaviour: input is the byte stream available for the reply
read (a short stream models `read_n` hitting end of stream), output
`some (major, minor)` models a zero return with the two out-parameters. -/

def X_REPLY : Nat := 1

/-- xinfo.c lines 822-845: reply `struct x_generic_query_version8_reply`,
version fields are single bytes at offsets 8 and 9. -/
def generic_query_version8 (reply : List Nat) : Option (Nat × Nat) :=
  if 32 ≤ reply.length ∧ byteAt reply 0 = X_REPLY then
    some (byteAt reply 8, byteAt reply 9)
  else none

/-- xinfo.c lines 847-870: version fields are 16-bit at offsets 8 and 10. -/
def generic_query_version16 (reply : List Nat) : Option (Nat × Nat) :=
  if 32 ≤ reply.length ∧ byteAt reply 0 = X_REPLY then
    some (le16At reply 8, le16At reply 10)
  else none

/-- xinfo.c lines 872-895: version fields are 32-bit at offsets 8 and 12. -/
def generic_query_version32 (reply : List Nat) : Option (Nat × Nat) :=
  if 32 ≤ reply.length ∧ byteAt reply 0 = X_REPLY then
    some (le32At reply 8, le32At reply 12)
  else none

/-- xinfo.c lines 897-919: parameterless request, same 16-bit reply layout. -/
def generic_query_version16_noparam (reply : List Nat) : Option (Nat × Nat) :=
  if 32 ≤ reply.length ∧ byteAt reply 0 = X_REPLY then
    some (le16At reply 8, le16At reply 10)
  else none

/-- xinfo.c lines 921-943: parameterless request, same 32-bit reply layout. -/
def generic_query_version32_noparam (reply : List Nat) : Option (Nat × Nat) :=
  if 32 ≤ reply.length ∧ byteAt reply 0 = X_REPLY then
    some (le32At reply 8, le32At reply 12)
  else none

/-- xinfo.c lines 1006-1030: thin wrappers passing extension opcode 0; the
reply handling is that of the wrapped function. -/
def x_generic_query_version8_zero : List Nat → Option (Nat × Nat) :=
  generic_query_version8

def x_generic_query_version16_zero : List Nat → Option (Nat × Nat) :=
  generic_query_version16

def x_generic_query_version32_zero : List Nat → Option (Nat × Nat) :=
  generic_query_version32

def x_generic_query_version16_noparam_zero : List Nat → Option (Nat × Nat) :=
  generic_query_version16_noparam

def x_generic_query_version32_noparam_zero : List Nat → Option (Nat × Nat) :=
  generic_query_version32_noparam

/-- xinfo.c lines 1032-1038: BIG-REQUESTS performs no exchange at all and
reports the constant version 2.0 unconditionally. -/
def x_big_request_query_version (_reply : List Nat) : Option (Nat × Nat) :=
  some (2, 0)

/-- xinfo.c lines 1040-1044: GLX uses the 32-bit dialect with a dedicated
request opcode; the reply handling is that of `generic_query_version32`. -/
def x_glx_query_version : List Nat → Option (Nat × Nat) :=
  generic_query_version32

/-- xinfo.c lines 1046-1052: XInputExtension uses the 16-bit dialect with a
dedicated request opcode. -/
def x_xinput_extension_query_version : List Nat → Option (Nat × Nat) :=
  generic_query_version16

/-- xinfo.c lines 1054-1076: MIT-SCREEN-SAVER sends an 8-bit-parameter
request but reads a `struct x_generic_query_version16_reply`. -/
def x_mit_screen_saver_query_version (reply : List Nat) : Option (Nat × Nat) :=
  if 32 ≤ reply.length ∧ byteAt reply 0 = X_REPLY then
    some (le16At reply 8, le16At reply 10)
  else none

/-- xinfo.c lines 1078-1099: SELinux likewise reads a 16-bit reply. -/
def x_selinux_query_version (reply : List Nat) : Option (Nat × Nat) :=
  if 32 ≤ reply.length ∧ byteAt reply 0 = X_REPLY then
    some (le16At reply 8, le16At reply 10)
  else none

/-- xinfo.c lines 1101-1122: XTEST's reply carries the 8-bit major at
offset 1 and the 16-bit minor at offset 8. -/
def x_xtest_query_version (reply : List Nat) : Option (Nat × Nat) :=
  if 32 ≤ reply.length ∧ byteAt reply 0 = X_REPLY then
    some (byteAt reply 1, le16At reply 8)
  else none

/-- xinfo.c lines 1124-1130: always fails (used for NV-GLX, which has no
documented version query). -/
def x_invalid_query_version (_reply : List Nat) : Option (Nat × Nat) :=
  none

def X_EXTENSION_NAME_BIG_REQUESTS : String := "BIG-REQUESTS"

def X_EXTENSION_NAME_NV_GLX : String := "NV-GLX"

/-- The Extension Version Dialect Table `x_extensions` (xinfo.c lines
1138-1238), in source order. -/
def x_extensions : List (String × (List Nat → Option (Nat × Nat))) :=
  [("Apple-DRI", x_generic_query_version16_noparam_zero),
   ("Apple-WM", x_generic_query_version16_noparam_zero),
   ("BIG-REQUESTS", x_big_request_query_version),
   ("Composite", x_generic_query_version32_zero),
   ("DAMAGE", x_generic_query_version32_zero),
   ("DOUBLE-BUFFER", x_generic_query_version8_zero),
   ("DPMS", x_generic_query_version16_zero),
   ("DMX", x_generic_query_version32_noparam_zero),
   ("DRI2", x_generic_query_version32_zero),
   ("DRI3", x_generic_query_version32_zero),
   ("Extended-Visual-Information", x_generic_query_version16_noparam_zero),
   ("FontCache", x_generic_query_version16_noparam_zero),
   ("GLX", x_glx_query_version),
   ("Generic Event Extension", x_generic_query_version16_zero),
   ("LBX", x_generic_query_version16_noparam_zero),
   ("LGE", x_generic_query_version32_noparam_zero),
   ("MIT-SCREEN-SAVER", x_mit_screen_saver_query_version),
   ("MIT-SHM", x_generic_query_version16_noparam_zero),
   ("NV-CONTROL", x_generic_query_version16_noparam_zero),
   ("NV-GLX", x_invalid_query_version),
   ("Present", x_generic_query_version32_zero),
   ("RANDR", x_generic_query_version32_zero),
   ("RECORD", x_generic_query_version16_zero),
   ("RENDER", x_generic_query_version32_zero),
   ("SECURITY", x_generic_query_version16_zero),
   ("SELinux", x_selinux_query_version),
   ("SGI-GLX", x_glx_query_version),
   ("SHAPE", x_generic_query_version16_noparam_zero),
   ("SYNC", x_generic_query_version8_zero),
   ("TOG-CUP", x_generic_query_version16_zero),
   ("Windows-WM", x_generic_query_version16_noparam_zero),
   ("X-Resource", x_generic_query_version8_zero),
   ("XC-APPGROUP", x_generic_query_version16_zero),
   ("XC-MISC", x_generic_query_version16_zero),
   ("XC-VidModeExtension", x_generic_query_version16_noparam_zero),
   ("XCALIBRATE", x_generic_query_version32_zero),
   ("XFIXES", x_generic_query_version32_zero),
   ("XFree86-Bigfont", x_generic_query_version16_noparam_zero),
   ("XFree86-DGA", x_generic_query_version16_noparam_zero),
   ("XFree86-DRI", x_generic_query_version16_noparam_zero),
   ("XFree86-Misc", x_generic_query_version16_noparam_zero),
   ("XFree86-Rush", x_generic_query_version16_noparam_zero),
   ("XFree86-VidModeExtension", x_generic_query_version16_noparam_zero),
   ("XINERAMA", x_generic_query_version8_zero),
   ("XInputExtension", x_xinput_extension_query_version),
   ("XKEYBOARD", x_generic_query_version16_zero),
   ("XpExtension", x_generic_query_version16_noparam_zero),
   ("XTEST", x_xtest_query_version),
   ("XVideo", x_generic_query_version16_noparam_zero),
   ("XVideo-MotionCompensation", x_generic_query_version32_noparam_zero)]

/-- xinfo.c lines 1240-1249: linear search of the table by exact name
match; a miss returns 1 (failure), which `print_x_extensions` (lines
1580-1584) renders as "unknown version" and continues. -/
def x_get_extension_version (name : String) (reply : List Nat) :
    Option (Nat × Nat) :=
  match x_extensions.find? (fun e => e.1 == name) with
  | some e => e.2 reply
  | none => none

/-- A well-formed 32-byte reply for the 8-bit dialect: status `X_REPLY`,
major and minor encoded at offsets 8 and 9. -/
def mk_version_reply8 (major minor : Nat) : List Nat :=
  [1, 0, 0, 0, 0, 0, 0, 0] ++ w8 major ++ w8 minor ++ List.replicate 22 0

/-- A well-formed 32-byte reply for the 16-bit dialect (offsets 8 and 10). -/
def mk_version_reply16 (major minor : Nat) : List Nat :=
  [1, 0, 0, 0, 0, 0, 0, 0] ++ w16 major ++ w16 minor ++ List.replicate 20 0

/-- A well-formed 32-byte reply for the 32-bit dialect (offsets 8 and 12). -/
def mk_version_reply32 (major minor : Nat) : List Nat :=
  [1, 0, 0, 0, 0, 0, 0, 0] ++ w32 major ++ w32 minor ++ List.replicate 16 0

/-- A well-formed 32-byte XTEST reply (major at offset 1, minor at 8). -/
def mk_xtest_version_reply (major minor : Nat) : List Nat :=
  [1] ++ w8 major ++ [0, 0, 0, 0, 0, 0] ++ w16 minor ++ List.replicate 22 0

/-! ## Credential secret lifecycle (claim C7)

Operations xinfo.c performs on the selected credential `auth_data` buffer
after the scan loop: on the credential-unavailable path the buffer does not
exist; on the success path (lines 650-654) the buffer is passed by const
pointer through `x_connect_to_display_with_auth_data` (which only ever
copies FROM it, line 315-316) and is then released with `free(auth_data)`
at line 654.  No `memset`, `bzero` or `explicit_bzero` appears anywhere in
xinfo.c, so no path overwrites the buffer before release. -/

inductive secret_event where
  | zeroed
  | freed
deriving DecidableEq

/-- The event trace of the selected protocol-data buffer over the run. -/
def auth_data_events (hostname : String) (number : Nat)
    (entries : List xauth_entry) : List secret_event :=
  match xauth_lookup hostname number entries with
  | none => []
  | some _ => [secret_event.freed]

/-! ## Connection close discipline (claim C8)

`x_disconnect` (xinfo.c lines 266-285) closes `x_connection.fd` only when
it is not -1 and then sets it to -1, so each call closes the descriptor at
most once.  `x_connect_to_socket` stores the connected descriptor (line
290) and on its failure paths calls `x_disconnect()` before `die()` -
except on two paths: a failed `write_n` of the setup request dies at line
323 with no `x_disconnect`, and a failed `calloc` of the additional-data
buffer dies at line 337 with no `x_disconnect`.  On success the descriptor
stays open and `main` (line 1611) closes it via the final `x_disconnect`.
The oracle below fixes the outcome of each fallible allocation / transfer,
and the model counts the `close` calls performed on the connection
descriptor before the process exits. -/

structure socket_io_oracle where
  request_alloc_ok : Bool
  setup_write_ok : Bool
  response_read_ok : Bool
  additional_alloc_ok : Bool
  additional_read_ok : Bool
  status_success : Bool
  decode_allocs_ok : Bool
deriving DecidableEq

inductive connect_exit where
  | finished
  | died
deriving DecidableEq

/-- Exit kind of `x_connect_to_socket` and the number of `close` calls it
performed on the connection descriptor, path by path (xinfo.c lines
287-423). -/
def x_connect_to_socket_closes (o : socket_io_oracle) : connect_exit × Nat :=
  if o.request_alloc_ok = false then (connect_exit.died, 1)
  else if o.setup_write_ok = false then (connect_exit.died, 0)
  else if o.response_read_ok = false then (connect_exit.died, 1)
  else if o.additional_alloc_ok = false then (connect_exit.died, 0)
  else if o.additional_read_ok = false then (connect_exit.died, 1)
  else if o.status_success = false then (connect_exit.died, 1)
  else if o.decode_allocs_ok = false then (connect_exit.died, 1)
  else (connect_exit.finished, 0)

/-- Total `close` calls on the connection descriptor over a whole run of
`main` (xinfo.c lines 1604-1613): the reporting phase never closes it, and
the final `x_disconnect` (line 1611) closes it exactly once when the
handshake finished. -/
def xinfo_run_closes (o : socket_io_oracle) : Nat :=
  match x_connect_to_socket_closes o with
  | (connect_exit.died, n) => n
  | (connect_exit.finished, n) => n + 1

/-- The header structure decoding recovers from `encode_setup_header x`:
each field truncated to its wire width, counts from the list lengths. -/
def dec_form_impl (x : x_setup_data) : x_setup_data_impl :=
  x_setup_data_impl.mk (x.data.release_number % 4294967296)
    (x.data.resource_id_base % 4294967296)
    (x.data.resource_id_mask % 4294967296)
    (x.data.motion_buffer_size % 4294967296) (x.vendor_name.length % 65536)
    (x.data.maximum_request_len % 65536) (x.roots.length % 256)
    (x.pixmap_formats.length % 256) (x.data.image_byte_order % 256)
    (x.data.bitmap_format_bit_order % 256)
    (x.data.bitmap_format_scanline_unit % 256)
    (x.data.bitmap_format_scanline_pad % 256) (x.data.min_keycode % 256)
    (x.data.max_keycode % 256)

/-! ## Counted strings from the credential store and the extension list
(xinfo.c lines 554-573 and 1548-1562, for claim C10) -/

/-- `readu16be` (xinfo.c lines 554-560): two bytes, big endian; fewer than
two bytes available is a failure. -/
def readu16be (s : List Nat) : Option (Nat × List Nat) :=
  match s with
  | a :: b :: rest => some (a * 256 + b, rest)
  | _ => none

/-- `read_counted_string` (xinfo.c lines 562-573): a big-endian 16-bit
length, then that many bytes into a `calloc(*length + 1, 1)` buffer (so
the byte at index `*length` stays 0); a short `fread` frees the buffer and
fails.  Returns (declared length, string buffer, remaining input). -/
def read_counted_string (s : List Nat) : Option (Nat × List Nat × List Nat) :=
  match readu16be s with
  | none => none
  | some (len, rest) =>
      if rest.length < len then none
      else some (len, rest.take len ++ [0], rest.drop len)

/-- The extension-name loop of `print_x_extensions` (xinfo.c lines
1552-1562): for each of `n` names, a length byte, then that many bytes
into a `calloc(name_len + 1, 1)` buffer with an explicit 0 written at
index `name_len`.  The cursor walks `additional_data` with no bounds
check, exactly like the setup decode pass. -/
def decode_extension_names : Nat → Rd → List (List Nat) × Rd
  | 0, s => ([], s)
  | n + 1, s =>
      let p := rd8 s
      let q := rdTake p.1 p.2
      let r := decode_extension_names n q.2
      ((q.1 ++ [0]) :: r.1, r.2)

/-! ## Concrete inputs used by the claim theorems -/

/-- A 32-byte additional-data buffer (`additional_data_len = 8` response
units) holding only the 32-byte setup header, which declares
`vendor_length = 4`, `num_roots = 0`, `num_pixmap_formats = 0`: its counts
require 36 bytes, so the buffer is truncated strictly before the vendor
field. -/
def c1_truncated_payload : List Nat :=
  [0, 0, 0, 0, 0, 0, 0, 0, 0, 0, 0, 0, 0, 0, 0, 0,
   4, 0, 0, 0, 0, 0, 0, 0, 0, 0, 0, 0, 0, 0, 0, 0]

/-- A synthetic well-formed payload: vendor "VN", one pixmap format, one
screen with one depth carrying one visual. -/
def sample_setup : x_setup_data :=
  x_setup_data.mk [86, 78]
    [x_format.mk 24 32 32]
    [x_screen.mk
      (x_screen_data.mk 1 2 3 4 5 1024 768 300 200 1 1 33 0 0 24 1)
      [x_depth.mk (x_depth_data.mk 24 1)
        [x_visual_type.mk 33 4 8 256 16711680 65280 255]]]
    (x_setup_data_impl.mk 12101000 4194304 2097151 256 2 65535 1 1 0 0 32 32
      8 255)

/-- The display-target string "host/unix:0" as bytes. -/
def test_display_name_unix : List Nat :=
  [104, 111, 115, 116, 47, 117, 110, 105, 120, 58, 48]

def xauth_test_host : String := "myhost"

def xauth_other_host : String := "elsewhere"

/-- Two credential-store records both matching (myhost, display 0), with
different protocol data. -/
def xauth_e1 : xauth_entry :=
  xauth_entry.mk 256 xauth_test_host 0 [77, 73, 84, 45, 49] [1, 2, 3]

def xauth_e2 : xauth_entry :=
  xauth_entry.mk 256 xauth_test_host 0 [77, 73, 84, 45, 50] [4, 5, 6]

/-- A record for a different host (matches nothing we look up). -/
def xauth_e3 : xauth_entry :=
  xauth_entry.mk 256 xauth_other_host 7 [88] [9]

/-- Spec side of the amended claim C4: the pair of the LAST matching entry
in file order. -/
def xauth_last_match (hostname : String) (number : Nat)
    (entries : List xauth_entry) : Option (List Nat × List Nat) :=
  (entries.reverse.find? (xauth_matches hostname number)).map
    (fun e => (e.xauth_protocol_name, e.xauth_data))

/-- A well-formed 32-bit-dialect reply claiming version 3.1. -/
def nv_glx_good_reply : List Nat := mk_version_reply32 3 1

/-- Oracle: every allocation and transfer succeeds. -/
def c8_all_ok_oracle : socket_io_oracle :=
  socket_io_oracle.mk true true true true true true true

/-- Oracle: the `write_n` of the setup request fails (xinfo.c line 322). -/
def c8_write_fail_oracle : socket_io_oracle :=
  socket_io_oracle.mk true false true true true true true

/-- Oracle: the `read_n` of the setup response fails (xinfo.c line 328). -/
def c8_read_fail_oracle : socket_io_oracle :=
  socket_io_oracle.mk true true false true true true true

/-! ## Cursor lemmas -/

theorem rdTake_self (xs rest : List Nat) (o : Bool) :
    rdTake xs.length (Rd.mk (xs ++ rest) o) = (xs, Rd.mk rest o) := by
  simp [rdTake, List.take_left, List.drop_left, List.length_append,
    Nat.sub_eq_zero_of_le, Nat.le_add_right]

theorem rdTake_pad (n : Nat) (rest : List Nat) (o : Bool) :
    rdTake n (Rd.mk (List.replicate n 0 ++ rest) o) =
      (List.replicate n 0, Rd.mk rest o) := by
  have h := rdTake_self (List.replicate n 0) rest o
  rwa [List.length_replicate] at h

theorem rd8_w8 (v : Nat) (rest : List Nat) (o : Bool) :
    rd8 (Rd.mk (w8 v ++ rest) o) = (v % 256, Rd.mk rest o) := by
  have h := rdTake_self (w8 v) rest o
  simp only [w8, List.cons_append, List.nil_append, List.length_cons,
    List.length_nil] at h
  norm_num at h
  simp [rd8, w8, List.cons_append, List.nil_append, h]

theorem rd16_w16 (v : Nat) (rest : List Nat) (o : Bool) :
    rd16 (Rd.mk (w16 v ++ rest) o) = (v % 65536, Rd.mk rest o) := by
  have h := rdTake_self (w16 v) rest o
  simp only [w16, List.cons_append, List.nil_append, List.length_cons,
    List.length_nil] at h
  norm_num at h
  simp [rd16, w16, List.cons_append, List.nil_append, h]
  omega

theorem rd32_w32 (v : Nat) (rest : List Nat) (o : Bool) :
    rd32 (Rd.mk (w32 v ++ rest) o) = (v % 4294967296, Rd.mk rest o) := by
  have h := rdTake_self (w32 v) rest o
  simp only [w32, List.cons_append, List.nil_append, List.length_cons,
    List.length_nil] at h
  norm_num at h
  simp [rd32, w32, List.cons_append, List.nil_append, h]
  omega

theorem rdTake_length (n : Nat) (s : Rd) : (rdTake n s).1.length = n := by
  simp [rdTake]
  omega

theorem rdTake_pad1 (rest : List Nat) (o : Bool) :
    rdTake 1 (Rd.mk (0 :: rest) o) = ([0], Rd.mk rest o) := by
  have h := rdTake_pad 1 rest o
  simpa [List.replicate] using h

theorem rdTake_pad4 (rest : List Nat) (o : Bool) :
    rdTake 4 (Rd.mk (0 :: 0 :: 0 :: 0 :: rest) o) =
      ([0, 0, 0, 0], Rd.mk rest o) := by
  have h := rdTake_pad 4 rest o
  simpa [List.replicate] using h

theorem rdTake_pad5 (rest : List Nat) (o : Bool) :
    rdTake 5 (Rd.mk (0 :: 0 :: 0 :: 0 :: 0 :: rest) o) =
      ([0, 0, 0, 0, 0], Rd.mk rest o) := by
  have h := rdTake_pad 5 rest o
  simpa [List.replicate] using h

/-! ## Record-level decode/encode round trips -/

theorem decode_x_format_encode (f : x_format) (rest : List Nat) (o : Bool) :
    decode_x_format (Rd.mk (encode_x_format f ++ rest) o) =
      (trunc_x_format f, Rd.mk rest o) := by
  simp [decode_x_format, encode_x_format, trunc_x_format, List.append_assoc,
    rd8_w8, rdTake_pad5]

theorem decode_x_visual_type_encode (v : x_visual_type) (rest : List Nat)
    (o : Bool) :
    decode_x_visual_type (Rd.mk (encode_x_visual_type v ++ rest) o) =
      (trunc_x_visual_type v, Rd.mk rest o) := by
  simp [decode_x_visual_type, encode_x_visual_type, trunc_x_visual_type,
    List.append_assoc, rd8_w8, rd16_w16, rd32_w32, rdTake_pad4]

theorem decode_visuals_encode (vs : List x_visual_type) (rest : List Nat)
    (o : Bool) :
    decode_visuals vs.length
        (Rd.mk ((vs.map encode_x_visual_type).flatten ++ rest) o) =
      (vs.map trunc_x_visual_type, Rd.mk rest o) := by
  induction vs generalizing rest o with
  | nil => simp [decode_visuals]
  | cons v vs ih =>
      simp only [List.map_cons, List.flatten_cons, List.length_cons,
        List.append_assoc]
      simp [decode_visuals, decode_x_visual_type_encode, ih]

theorem decode_formats_encode (fs : List x_format) (rest : List Nat)
    (o : Bool) :
    decode_formats fs.length
        (Rd.mk ((fs.map encode_x_format).flatten ++ rest) o) =
      (fs.map trunc_x_format, Rd.mk rest o) := by
  induction fs generalizing rest o with
  | nil => simp [decode_formats]
  | cons f fs ih =>
      simp only [List.map_cons, List.flatten_cons, List.length_cons,
        List.append_assoc]
      simp [decode_formats, decode_x_format_encode, ih]

theorem decode_one_x_depth_encode (d : x_depth) (rest : List Nat) (o : Bool)
    (h : d.visuals.length < 65536) :
    decode_one_x_depth (Rd.mk (encode_x_depth d ++ rest) o) =
      (dec_form_x_depth d, Rd.mk rest o) := by
  simp [decode_one_x_depth, decode_x_depth_data, encode_x_depth,
    dec_form_x_depth, List.append_assoc, rd8_w8, rd16_w16, rdTake_pad1,
    rdTake_pad4, Nat.mod_eq_of_lt h, decode_visuals_encode]

theorem decode_depths_encode (ds : List x_depth) (rest : List Nat) (o : Bool)
    (h : ∀ d ∈ ds, d.visuals.length < 65536) :
    decode_depths ds.length
        (Rd.mk ((ds.map encode_x_depth).flatten ++ rest) o) =
      (ds.map dec_form_x_depth, Rd.mk rest o) := by
  induction ds generalizing rest o with
  | nil => simp [decode_depths]
  | cons d ds ih =>
      simp only [List.map_cons, List.flatten_cons, List.length_cons,
        List.append_assoc]
      have hd : d.visuals.length < 65536 := h d (List.mem_cons_self d ds)
      have ht : ∀ e ∈ ds, e.visuals.length < 65536 :=
        fun e he => h e (List.mem_cons_of_mem d he)
      simp [decode_depths, decode_one_x_depth_encode d _ _ hd, ih _ _ ht]

theorem decode_one_x_screen_encode (s : x_screen) (rest : List Nat) (o : Bool)
    (h : screen_counts_ok s) :
    decode_one_x_screen (Rd.mk (encode_x_screen s ++ rest) o) =
      (dec_form_x_screen s, Rd.mk rest o) := by
  simp [decode_one_x_screen, decode_x_screen_data, encode_x_screen,
    dec_form_x_screen, trunc_x_screen_data, List.append_assoc, rd8_w8,
    rd16_w16, rd32_w32, Nat.mod_eq_of_lt h.1, decode_depths_encode _ _ _ h.2]

theorem decode_screens_encode (ss : List x_screen) (rest : List Nat) (o : Bool)
    (h : ∀ s ∈ ss, screen_counts_ok s) :
    decode_screens ss.length
        (Rd.mk ((ss.map encode_x_screen).flatten ++ rest) o) =
      (ss.map dec_form_x_screen, Rd.mk rest o) := by
  induction ss generalizing rest o with
  | nil => simp [decode_screens]
  | cons s ss ih =>
      simp only [List.map_cons, List.flatten_cons, List.length_cons,
        List.append_assoc]
      have hs : screen_counts_ok s := h s (List.mem_cons_self s ss)
      have ht : ∀ e ∈ ss, screen_counts_ok e :=
        fun e he => h e (List.mem_cons_of_mem s he)
      simp [decode_screens, decode_one_x_screen_encode s _ _ hs, ih _ _ ht]

theorem decode_screens_encode_nil (ss : List x_screen) (o : Bool)
    (h : ∀ s ∈ ss, screen_counts_ok s) :
    decode_screens ss.length (Rd.mk ((ss.map encode_x_screen).flatten) o) =
      (ss.map dec_form_x_screen, Rd.mk [] o) := by
  have h2 := decode_screens_encode ss [] o h
  simpa using h2

theorem decode_impl_encode (x : x_setup_data) (rest : List Nat) (o : Bool) :
    decode_x_setup_data_impl (Rd.mk (encode_setup_header x ++ rest) o) =
      (dec_form_impl x, Rd.mk rest o) := by
  simp [decode_x_setup_data_impl, encode_setup_header, dec_form_impl,
    List.append_assoc, rd8_w8, rd16_w16, rd32_w32, rdTake_pad4]

theorem decode_setup_payload_encode (x : x_setup_data)
    (hv : x.vendor_name.length < 65536) (hf : x.pixmap_formats.length < 256)
    (hr : x.roots.length < 256) (hs : ∀ s ∈ x.roots, screen_counts_ok s) :
    decode_setup_payload (encode_setup_payload x) =
      (x_setup_data.mk (x.vendor_name ++ [0])
        (x.pixmap_formats.map trunc_x_format) (x.roots.map dec_form_x_screen)
        (dec_form_impl x), Rd.mk [] false) := by
  simp [decode_setup_payload, encode_setup_payload, List.append_assoc,
    decode_impl_encode, dec_form_impl, Nat.mod_eq_of_lt hv,
    Nat.mod_eq_of_lt hf, Nat.mod_eq_of_lt hr, rdTake_self,
    decode_formats_encode, decode_screens_encode_nil _ _ hs]

/-! ## Encoded payload size -/

theorem encode_x_visual_type_length (v : x_visual_type) :
    (encode_x_visual_type v).length = 24 := by
  simp [encode_x_visual_type, w8, w16, w32]

theorem encode_visuals_length (vs : List x_visual_type) :
    ((vs.map encode_x_visual_type).flatten).length = 24 * vs.length := by
  induction vs with
  | nil => simp
  | cons v vs ih =>
      simp only [List.map_cons, List.flatten_cons, List.length_append,
        List.length_cons, encode_x_visual_type_length, ih]
      omega

theorem encode_x_depth_length (d : x_depth) :
    (encode_x_depth d).length = depth_wire_size d := by
  simp only [encode_x_depth, depth_wire_size, List.length_append, w8, w16,
    List.length_cons, List.length_nil, List.length_replicate,
    encode_visuals_length]

theorem encode_depths_length (ds : List x_depth) :
    ((ds.map encode_x_depth).flatten).length = (ds.map depth_wire_size).sum := by
  induction ds with
  | nil => simp
  | cons d ds ih =>
      simp only [List.map_cons, List.flatten_cons, List.length_append,
        List.sum_cons, encode_x_depth_length, ih]

theorem encode_x_screen_length (s : x_screen) :
    (encode_x_screen s).length = screen_wire_size s := by
  simp only [encode_x_screen, screen_wire_size, List.length_append, w8, w16,
    w32, List.length_cons, List.length_nil, encode_depths_length]

theorem encode_screens_length (ss : List x_screen) :
    ((ss.map encode_x_screen).flatten).length = (ss.map screen_wire_size).sum := by
  induction ss with
  | nil => simp
  | cons s ss ih =>
      simp only [List.map_cons, List.flatten_cons, List.length_append,
        List.sum_cons, encode_x_screen_length, ih]

theorem encode_formats_length (fs : List x_format) :
    ((fs.map encode_x_format).flatten).length = 8 * fs.length := by
  induction fs with
  | nil => simp
  | cons f fs ih =>
      simp only [List.map_cons, List.flatten_cons, List.length_append,
        List.length_cons, encode_x_format, w8, List.length_replicate,
        List.length_nil, ih]
      omega

theorem encode_setup_header_length (x : x_setup_data) :
    (encode_setup_header x).length = 32 := by
  simp [encode_setup_header, w8, w16, w32]

theorem encode_setup_payload_length (x : x_setup_data) :
    (encode_setup_payload x).length = setup_implied_size x := by
  simp only [encode_setup_payload, setup_implied_size, List.length_append,
    encode_setup_header_length, encode_formats_length, encode_screens_length]

/-! ## Small list helpers -/

theorem getD_snoc (l : List Nat) (a d : Nat) : (l ++ [a]).getD l.length d = a := by
  simp [List.getD_append_right]

theorem xauth_fold_last (hostname : String) (number : Nat) :
    ∀ (es : List xauth_entry) (acc : Option (List Nat × List Nat)),
      es.foldl
          (fun acc e =>
            if xauth_matches hostname number e then
              some (e.xauth_protocol_name, e.xauth_data)
            else acc)
          acc =
        ((es.reverse.find? (xauth_matches hostname number)).map
            (fun e => (e.xauth_protocol_name, e.xauth_data))).or acc := by
  intro es
  induction es with
  | nil => simp
  | cons e es ih =>
      intro acc
      simp only [List.foldl_cons, List.reverse_cons, List.find?_append, ih]
      cases hfind : es.reverse.find? (xauth_matches hostname number) with
      | some v => simp
      | none =>
          cases hpe : xauth_matches hostname number e <;>
            simp [List.find?, hpe]

/-! ## Claim theorems -/

/-- C3: for every length, the padding amount is `(4 - len % 4) % 4` and lies
below 4; the padding bytes written after the protocol name and after the
authentication data are zero-filled; and re-parsing the request buffer at
the declared offsets and lengths recovers the name and the data exactly. -/
theorem setup_request_padding_roundtrip (protocol_name auth_data : List Nat) :
    X_PADDING protocol_name.length = (4 - protocol_name.length % 4) % 4 ∧
    X_PADDING protocol_name.length < 4 ∧ X_PADDING auth_data.length < 4 ∧
    ((build_setup_request protocol_name auth_data).drop 12).take
        protocol_name.length = protocol_name ∧
    (((build_setup_request protocol_name auth_data).drop 12).drop
          protocol_name.length).take (X_PADDING protocol_name.length) =
      List.replicate (X_PADDING protocol_name.length) 0 ∧
    ((build_setup_request protocol_name auth_data).drop
          (12 + X_PAD protocol_name.length)).take auth_data.length =
      auth_data ∧
    (build_setup_request protocol_name auth_data).drop
        (12 + X_PAD protocol_name.length + auth_data.length) =
      List.replicate (X_PADDING auth_data.length) 0 := by
  have hhdr :
      (serialize_x_setup_request protocol_name.length auth_data.length).length
        = 12 := by
    simp [serialize_x_setup_request, w8, w16]
  have hb : build_setup_request protocol_name auth_data =
      serialize_x_setup_request protocol_name.length auth_data.length ++
        (protocol_name ++
          (List.replicate (X_PADDING protocol_name.length) 0 ++
            (auth_data ++ List.replicate (X_PADDING auth_data.length) 0))) := by
    simp [build_setup_request, List.append_assoc]
  have hdrop12 : (build_setup_request protocol_name auth_data).drop 12 =
      protocol_name ++
        (List.replicate (X_PADDING protocol_name.length) 0 ++
          (auth_data ++ List.replicate (X_PADDING auth_data.length) 0)) := by
    rw [hb, ← hhdr, List.drop_left]
  have hdropname :
      ((build_setup_request protocol_name auth_data).drop 12).drop
          protocol_name.length =
        List.replicate (X_PADDING protocol_name.length) 0 ++
          (auth_data ++ List.replicate (X_PADDING auth_data.length) 0) := by
    rw [hdrop12, List.drop_left]
  have hdroppad :
      (((build_setup_request protocol_name auth_data).drop 12).drop
            protocol_name.length).drop (X_PADDING protocol_name.length) =
        auth_data ++ List.replicate (X_PADDING auth_data.length) 0 := by
    rw [hdropname,
      List.drop_left' (List.length_replicate (X_PADDING protocol_name.length) 0)]
  have hdropall : (build_setup_request protocol_name auth_data).drop
        (12 + X_PAD protocol_name.length) =
      auth_data ++ List.replicate (X_PADDING auth_data.length) 0 := by
    rw [← hdroppad, List.drop_drop, List.drop_drop, X_PAD]
  refine ⟨rfl, by unfold X_PADDING; omega, by unfold X_PADDING; omega, ?_, ?_,
    ?_, ?_⟩
  · rw [hdrop12]; exact List.take_left protocol_name _
  · rw [hdropname]
    exact List.take_left' (List.length_replicate (X_PADDING protocol_name.length) 0)
  · rw [hdropall]; exact List.take_left auth_data _
  · have h2 : (build_setup_request protocol_name auth_data).drop
          (12 + X_PAD protocol_name.length + auth_data.length) =
        ((build_setup_request protocol_name auth_data).drop
            (12 + X_PAD protocol_name.length)).drop auth_data.length := by
      rw [List.drop_drop]
    rw [h2, hdropall, List.drop_left]

/-- C9: for every credential input, the serialized setup request begins with
the little-endian marker 'l' (ASCII 108) and carries protocol version
major 11, minor 0 - constants independent of all inputs. -/
theorem setup_request_constant_header (protocol_name auth_data : List Nat) :
    byteAt (build_setup_request protocol_name auth_data) 0 = 108 ∧
    le16At (build_setup_request protocol_name auth_data) 2 = 11 ∧
    le16At (build_setup_request protocol_name auth_data) 4 = 0 := by
  simp [build_setup_request, serialize_x_setup_request, w8, w16, byteAt,
    le16At, X_VERSION_MAJOR, X_VERSION_MINOR, List.cons_append,
    List.nil_append, List.getD]

/-- C6 (code_bug evaluation): parsing the target "host/unix:0" loses the
final hostname character (the snprintf size excludes it), so the recovered
hostname is "host/uni", the "/unix" suffix test fails and the local
transport is NOT selected; the display number and the defaulted screen
number are still parsed as 0. -/
theorem display_name_parsing_truncates_hostname :
    display_hostname_len test_display_name_unix = 9 ∧
    parsed_hostname test_display_name_unix =
      [104, 111, 115, 116, 47, 117, 110, 105] ∧
    parsed_hostname test_display_name_unix ≠
      [104, 111, 115, 116, 47, 117, 110, 105, 120] ∧
    is_unix_connection test_display_name_unix = false ∧
    parsed_display_number test_display_name_unix = 0 ∧
    parsed_screen_number test_display_name_unix = 0 := by
  refine ⟨by decide, by decide, by decide, by decide, by decide, by decide⟩

/-- C7 (code_bug evaluation): on no run is the selected credential
protocol-data buffer ever overwritten; on the successful-lookup run it is
released by `free` alone, with no zeroing event before it. -/
theorem auth_data_freed_without_zeroing :
    (∀ (hostname : String) (number : Nat) (entries : List xauth_entry),
       secret_event.zeroed ∉ auth_data_events hostname number entries) ∧
    auth_data_events xauth_test_host 0 [xauth_e1] = [secret_event.freed] := by
  constructor
  · intro hostname number entries
    unfold auth_data_events
    cases hx : xauth_lookup hostname number entries <;> simp
  · unfold auth_data_events
    have : xauth_lookup xauth_test_host 0 [xauth_e1] =
        some ([77, 73, 84, 45, 49], [1, 2, 3]) := by decide
    rw [this]

/-- C8 (code_bug evaluation): when the `write_n` of the setup request fails,
the process exits without any `close` of the open connection (xinfo.c line
323 dies without `x_disconnect`); the response-read-failure path and the
successful run each close it exactly once, and no run ever closes it
twice. -/
theorem connection_close_discipline :
    x_connect_to_socket_closes c8_write_fail_oracle =
      (connect_exit.died, 0) ∧
    xinfo_run_closes c8_all_ok_oracle = 1 ∧
    xinfo_run_closes c8_read_fail_oracle = 1 ∧
    (∀ o : socket_io_oracle, xinfo_run_closes o ≤ 1) := by
  refine ⟨by decide, by decide, by decide, ?_⟩
  intro o
  rcases o with ⟨a, b, c, d, e, f, g⟩
  cases a <;> cases b <;> cases c <;> cases d <;> cases e <;> cases f <;>
    cases g <;> decide

/-- C4 (counterexample): with two store entries matching (myhost, 0), the
scan returns the SECOND entry's pair, not the first's: the claim's
"first matching entry" reading is false on the code. -/
theorem xauth_lookup_overwrites_earlier_match :
    xauth_lookup xauth_test_host 0 [xauth_e1, xauth_e2] =
      some ([77, 73, 84, 45, 50], [4, 5, 6]) ∧
    xauth_first_match xauth_test_host 0 [xauth_e1, xauth_e2] =
      some ([77, 73, 84, 45, 49], [1, 2, 3]) ∧
    xauth_lookup xauth_test_host 0 [xauth_e1, xauth_e2] ≠
      xauth_first_match xauth_test_host 0 [xauth_e1, xauth_e2] := by
  refine ⟨by decide, by decide, by decide⟩

/-- C4 (amended): the credential lookup returns the protocol-name/data pair
of the LAST matching entry in file order; when no entry matches, the run
fails with a credential-unavailable error before any handshake is
attempted. -/
theorem xauth_lookup_last_match_or_fail (hostname : String) (number : Nat)
    (entries : List xauth_entry) :
    xauth_lookup hostname number entries =
      xauth_last_match hostname number entries ∧
    ((∀ e ∈ entries, xauth_matches hostname number e = false) →
      x_connect_to_display_outcome hostname number entries =
        connect_outcome.credential_unavailable) := by
  have hfold := xauth_fold_last hostname number entries none
  have hmain : xauth_lookup hostname number entries =
      xauth_last_match hostname number entries := by
    simpa [xauth_lookup, xauth_last_match] using hfold
  refine ⟨hmain, ?_⟩
  intro hnone
  have hfind : entries.reverse.find? (xauth_matches hostname number) = none := by
    apply List.find?_eq_none.mpr
    intro x hx
    simp [hnone x (List.mem_reverse.mp hx)]
  have hlook : xauth_lookup hostname number entries = none := by
    rw [hmain, xauth_last_match, hfind]
    rfl
  simp [x_connect_to_display_outcome, hlook]

/-- C4 (witness): a store whose only entry is for another host yields the
credential-unavailable outcome. -/
theorem xauth_lookup_last_match_or_fail_witness :
    x_connect_to_display_outcome xauth_test_host 0 [xauth_e3] =
      connect_outcome.credential_unavailable :=
  (xauth_lookup_last_match_or_fail xauth_test_host 0 [xauth_e3]).2 (by decide)

/-- C1 (code_bug evaluation): on the 32-byte additional-data buffer whose
header declares `vendor_length = 4` (so its counts require 36 bytes), the
decode pass of xinfo.c lines 355-423 reads past the end of the buffer (the
`oob` flag records that a memcpy source extended beyond it) and still
completes with a fabricated 4-byte vendor string - there is no truncation
error path at all. -/
theorem truncated_setup_payload_reads_out_of_bounds :
    (decode_setup_payload c1_truncated_payload).2.oob = true ∧
    (decode_setup_payload c1_truncated_payload).1.data.vendor_length = 4 ∧
    (decode_setup_payload c1_truncated_payload).1.data.num_roots = 0 ∧
    (decode_setup_payload c1_truncated_payload).1.data.num_pixmap_formats = 0 ∧
    c1_truncated_payload.length = 32 ∧
    c1_truncated_payload.length <
      32 + (decode_setup_payload c1_truncated_payload).1.data.vendor_length ∧
    (decode_setup_payload c1_truncated_payload).1.vendor_name =
      [0, 0, 0, 0, 0] := by
  refine ⟨by decide, by decide, by decide, by decide, by decide, by decide,
    by decide⟩

theorem getD_snoc_of_len (l : List Nat) (a d n : Nat) (h : l.length = n) :
    (l ++ [a]).getD n d = a := by
  subst h
  exact getD_snoc l a d

/-- C2: decoding a well-formed synthetic payload with N screens, depth
counts D and visual counts V produces exactly N screen records with exactly
those nested counts and exactly the declared number of pixmap formats; the
stored count fields equal the list lengths; the forward cursor consumes the
whole buffer with no out-of-bounds read; and the buffer size is exactly the
size the counts imply (fixed header + vendor length + per-record sizes). -/
theorem setup_payload_decode_counts (x : x_setup_data)
    (hv : x.vendor_name.length < 65536) (hf : x.pixmap_formats.length < 256)
    (hr : x.roots.length < 256) (hs : ∀ s ∈ x.roots, screen_counts_ok s) :
    (decode_setup_payload (encode_setup_payload x)).1.roots.length =
      x.roots.length ∧
    (decode_setup_payload (encode_setup_payload x)).1.roots.map
        (fun s => s.allowed_depths.map (fun d => d.visuals.length)) =
      x.roots.map (fun s => s.allowed_depths.map (fun d => d.visuals.length)) ∧
    (decode_setup_payload (encode_setup_payload x)).1.pixmap_formats.length =
      x.pixmap_formats.length ∧
    (decode_setup_payload (encode_setup_payload x)).1.data.num_roots =
      x.roots.length ∧
    (decode_setup_payload (encode_setup_payload x)).1.data.num_pixmap_formats =
      x.pixmap_formats.length ∧
    (decode_setup_payload (encode_setup_payload x)).1.data.vendor_length =
      x.vendor_name.length ∧
    (decode_setup_payload (encode_setup_payload x)).2 = Rd.mk [] false ∧
    (encode_setup_payload x).length = setup_implied_size x := by
  have h := decode_setup_payload_encode x hv hf hr hs
  refine ⟨?_, ?_, ?_, ?_, ?_, ?_, ?_, encode_setup_payload_length x⟩ <;>
    simp [h, dec_form_impl, dec_form_x_screen, dec_form_x_depth,
      trunc_x_screen_data, Nat.mod_eq_of_lt hv, Nat.mod_eq_of_lt hf,
      Nat.mod_eq_of_lt hr, List.map_map, Function.comp]

/-- C2 (witness): the sample payload with 1 screen, 1 depth, 1 visual and
1 pixmap format satisfies the hypotheses and is consumed exactly. -/
theorem setup_payload_decode_counts_witness :
    (∀ s ∈ sample_setup.roots, screen_counts_ok s) ∧
    ((decode_setup_payload (encode_setup_payload sample_setup)).2 =
        Rd.mk [] false ∧
      (encode_setup_payload sample_setup).length =
        setup_implied_size sample_setup) :=
  ⟨by decide,
    (setup_payload_decode_counts sample_setup (by decide) (by decide)
      (by decide) (by decide)).2.2.2.2.2.2⟩

/-- C10: every string the program builds from counted wire data - the
vendor name from the setup payload, every counted field from the credential
store, every extension name from the list-extensions reply - lives in a
buffer of size declared-length + 1 whose byte at index declared-length is
0 (and whose content below that index is the wire data). -/
theorem counted_string_buffers_nul_terminated :
    (∀ buf : List Nat,
       (decode_setup_payload buf).1.vendor_name.length =
         (decode_setup_payload buf).1.data.vendor_length + 1 ∧
       (decode_setup_payload buf).1.vendor_name.getD
         (decode_setup_payload buf).1.data.vendor_length 1 = 0) ∧
    (∀ (s : List Nat) (len : Nat) (sbuf rest : List Nat),
       read_counted_string s = some (len, sbuf, rest) →
       sbuf.length = len + 1 ∧ sbuf.getD len 1 = 0 ∧
         sbuf.take len = (s.drop 2).take len) ∧
    (∀ (n : Nat) (st : Rd), ∀ nbuf ∈ (decode_extension_names n st).1,
       ∃ bs : List Nat, nbuf = bs ++ [0] ∧ nbuf.length = bs.length + 1 ∧
         nbuf.getD bs.length 1 = 0) := by
  refine ⟨?_, ?_, ?_⟩
  · intro buf
    constructor
    · simp [decode_setup_payload, rdTake_length]
    · simp only [decode_setup_payload]
      exact getD_snoc_of_len _ 0 1 _ (rdTake_length _ _)
  · intro s len sbuf rest h
    rcases s with _ | ⟨a, s2⟩
    · simp [read_counted_string, readu16be] at h
    rcases s2 with _ | ⟨b, t⟩
    · simp [read_counted_string, readu16be] at h
    simp only [read_counted_string, readu16be] at h
    by_cases hlt : t.length < a * 256 + b
    · simp [hlt] at h
    · simp only [hlt, if_false, Option.some.injEq, Prod.mk.injEq] at h
      obtain ⟨rfl, ⟨rfl, rfl⟩⟩ := h
      have hlen : (t.take (a * 256 + b)).length = a * 256 + b := by
        simp [List.length_take]
        omega
      refine ⟨?_, getD_snoc_of_len _ 0 1 _ hlen, ?_⟩
      · simp [List.length_append, hlen]
      · simp [List.take_left' hlen]
  · intro n
    induction n with
    | zero =>
        intro st nbuf hm
        simp [decode_extension_names] at hm
    | succ n ih =>
        intro st nbuf hm
        simp only [decode_extension_names] at hm
        rcases List.mem_cons.mp hm with hh | hh
        · refine ⟨_, hh, by rw [hh]; simp, ?_⟩
          rw [hh]
          exact getD_snoc _ _ _
        · exact ih _ nbuf hh

/-- C10 (witness): `read_counted_string` on the stream 00 02 'A' 'B' yields
the 3-byte buffer "AB\x00" with the terminator at index 2. -/
theorem counted_string_buffers_nul_terminated_witness :
    ([65, 66, 0] : List Nat).length = 2 + 1 ∧
    ([65, 66, 0] : List Nat).getD 2 1 = 0 ∧
    ([65, 66, 0] : List Nat).take 2 =
      (([0, 2, 65, 66] : List Nat).drop 2).take 2 :=
  counted_string_buffers_nul_terminated.2.1 [0, 2, 65, 66] 2 [65, 66, 0] []
    (by decide)

theorem version_reply_guard_none (f : List Nat → Nat × Nat) (reply : List Nat)
    (h : reply.length < 32 ∨ byteAt reply 0 ≠ X_REPLY) :
    (if 32 ≤ reply.length ∧ byteAt reply 0 = X_REPLY then some (f reply)
      else none) = none := by
  rw [if_neg]
  rintro ⟨h1, h2⟩
  rcases h with h | h
  · omega
  · exact h h2

/-- C5 (counterexample): NV-GLX is an entry of the dialect table, yet on a
well-formed 32-byte reply with status `X_REPLY` its version query still
fails - the claim's "every extension in the table returns success with the
encoded pair when status = REPLY" is false on the code. -/
theorem nv_glx_entry_fails_on_good_reply :
    X_EXTENSION_NAME_NV_GLX ∈ x_extensions.map Prod.fst ∧
    byteAt nv_glx_good_reply 0 = X_REPLY ∧
    nv_glx_good_reply.length = 32 ∧
    x_get_extension_version X_EXTENSION_NAME_NV_GLX nv_glx_good_reply =
      none := by
  refine ⟨by simp [x_extensions, X_EXTENSION_NAME_NV_GLX], by decide,
    by decide, by decide⟩

/-- C5 (amended): every dialect-table entry other than BIG-REQUESTS (whose
dialect reports the constant version 2.0 without examining any reply) fails
locally - no crash - on a short read or on a status byte other than
`X_REPLY`; every entry other than BIG-REQUESTS and NV-GLX (which always
reports version-unknown) parses its fixed 32-byte reply by one of the four
reply layouts, and each layout recovers exactly the major/minor pair
encoded at its field offsets and widths from a status-`X_REPLY` reply; a
table-lookup miss yields failure, which the caller renders as "unknown
version" and is not an error. -/
theorem x_extension_version_dialects :
    (∀ e ∈ x_extensions, e.1 ≠ X_EXTENSION_NAME_BIG_REQUESTS →
       ∀ reply : List Nat,
         reply.length < 32 ∨ byteAt reply 0 ≠ X_REPLY → e.2 reply = none) ∧
    (∀ e ∈ x_extensions, e.1 ≠ X_EXTENSION_NAME_BIG_REQUESTS →
       e.1 ≠ X_EXTENSION_NAME_NV_GLX →
       (e.2 = generic_query_version8 ∨ e.2 = generic_query_version16 ∨
         e.2 = generic_query_version32 ∨ e.2 = x_xtest_query_version)) ∧
    (∀ M m : Nat, M < 256 → m < 256 →
       generic_query_version8 (mk_version_reply8 M m) = some (M, m)) ∧
    (∀ M m : Nat, M < 65536 → m < 65536 →
       generic_query_version16 (mk_version_reply16 M m) = some (M, m)) ∧
    (∀ M m : Nat, M < 4294967296 → m < 4294967296 →
       generic_query_version32 (mk_version_reply32 M m) = some (M, m)) ∧
    (∀ M m : Nat, M < 256 → m < 65536 →
       x_xtest_query_version (mk_xtest_version_reply M m) = some (M, m)) ∧
    (∀ (name : String) (reply : List Nat),
       (∀ e ∈ x_extensions, e.1 ≠ name) →
       x_get_extension_version name reply = none) := by
  refine ⟨?_, ?_, ?_, ?_, ?_, ?_, ?_⟩
  · intro e he hbr
    simp only [x_extensions] at he
    fin_cases he <;>
      first
        | exact absurd rfl hbr
        | exact fun reply h =>
            version_reply_guard_none (fun r => (byteAt r 8, byteAt r 9))
              reply h
        | exact fun reply h =>
            version_reply_guard_none (fun r => (le16At r 8, le16At r 10))
              reply h
        | exact fun reply h =>
            version_reply_guard_none (fun r => (le32At r 8, le32At r 12))
              reply h
        | exact fun reply h =>
            version_reply_guard_none (fun r => (byteAt r 1, le16At r 8))
              reply h
        | exact fun reply h => rfl
  · intro e he hbr hnv
    simp only [x_extensions] at he
    fin_cases he <;>
      first
        | exact absurd rfl hbr
        | exact absurd rfl hnv
        | exact Or.inl rfl
        | exact Or.inr (Or.inl rfl)
        | exact Or.inr (Or.inr (Or.inl rfl))
        | exact Or.inr (Or.inr (Or.inr rfl))
  · intro M m hM hm
    simp [generic_query_version8, mk_version_reply8, w8, byteAt, X_REPLY,
      List.cons_append, List.nil_append, List.getD, Nat.mod_eq_of_lt hM,
      Nat.mod_eq_of_lt hm]
  · intro M m hM hm
    simp [generic_query_version16, mk_version_reply16, w16, byteAt, le16At,
      X_REPLY, List.cons_append, List.nil_append, List.getD]
    omega
  · intro M m hM hm
    simp [generic_query_version32, mk_version_reply32, w32, byteAt, le32At,
      X_REPLY, List.cons_append, List.nil_append, List.getD]
    omega
  · intro M m hM hm
    simp [x_xtest_query_version, mk_xtest_version_reply, w8, w16, byteAt,
      le16At, X_REPLY, List.cons_append, List.nil_append, List.getD,
      Nat.mod_eq_of_lt hM]
    omega
  · intro name reply h
    have hf : x_extensions.find? (fun e => e.1 == name) = none := by
      apply List.find?_eq_none.mpr
      intro e he
      simp [h e he]
    simp [x_get_extension_version, hf]

/-- C5 (witness): the 16-bit dialect recovers the encoded pair 3.1. -/
theorem x_extension_version_dialects_witness :
    generic_query_version16 (mk_version_reply16 3 1) = some (3, 1) :=
  x_extension_version_dialects.2.2.2.1 3 1 (by decide) (by decide)
